import Mathlib

/-!
Verification of the "Battle of Bytes" auction backend (`backend_api.py`).

The backend is a Flask/SQLAlchemy application over seven tables
(players, bids, enquiries, poll, people, activity_log, settings).
We embed the persistence store as an explicit state record `St` and each
HTTP handler as a pure state-passing function.  Machine integers are
modelled as `Int` (SQLite/Postgres integers do not overflow at the sizes
involved); timestamps are modelled as integer seconds; the `end_time`
ISO string stored in `settings` is modelled as the instant it denotes.
Fallible handlers return a response value together with the resulting
store.  Socket broadcasts and print statements are outside the store and
are not modelled.
-/

namespace BOB

/-- A row of the `players` table (class `Player` in `backend_api.py`). -/
structure Player where
  id : Int
  name : String
  nickname : String
  role : String
  base_price : Int
  current_bid : Int
  highest_bidder : Option String
  image_url : String
  bio : String
  skills : String
  total_bids : Int
deriving DecidableEq

/-- A row of the `bids` table (class `Bid`); `id` is the autoincrement key. -/
structure Bid where
  id : Int
  player_id : Int
  bidder_name : String
  bid_amount : Int
  timestamp : Int
deriving DecidableEq

/-- A row of the `enquiries` table (class `Enquiry`). -/
structure Enquiry where
  name : String
  email : String
  message : String
  timestamp : Int
deriving DecidableEq

/-- A row of the `poll` table (class `Poll`). -/
structure Poll where
  team_name : String
  votes : Int
  image_url : String
  video_url : String
deriving DecidableEq

/-- A row of the `people` table (class `Person`). -/
structure Person where
  name : String
  role : String
  email : String
  bio : String
  image_url : String
  social_handle : Option String
  video_url : Option String
  mentor_image_url : Option String
deriving DecidableEq

/-- A row of the `activity_log` table (class `ActivityLog`). -/
structure ActivityEntry where
  type : String
  description : String
  timestamp : Int
deriving DecidableEq

/-- A row of the `settings` table (class `Setting`); `end_time` is modelled
as the integer instant the stored ISO string denotes. -/
structure Setting where
  id : Int
  end_time : Int
deriving DecidableEq

/-- The whole persistence store.  `next_bid_id` is the autoincrement counter
of the `bids` table (it survives bulk deletes, as in the database). -/
structure St where
  players : List Player
  bids : List Bid
  enquiries : List Enquiry
  polls : List Poll
  people : List Person
  activity : List ActivityEntry
  settings : List Setting
  next_bid_id : Int
deriving DecidableEq

/-- The store of a freshly created, never seeded database. -/
def emptySt : St :=
  { players := [], bids := [], enquiries := [], polls := [], people := []
  , activity := [], settings := [], next_bid_id := 1 }

/-! ### Generic list helpers

SQLAlchemy `query(...).filter_by(...).first()` followed by a field update
mutates exactly the first matching row; `.delete()` on a single fetched row
removes it.  These helpers embed that behaviour. -/

/-- Apply `f` to the first element satisfying `pred`, keep the rest. -/
def updateFirstBy : List α → (α → Bool) → (α → α) → List α
  | [], _, _ => []
  | x :: xs, pred, f => if pred x then f x :: xs else x :: updateFirstBy xs pred f

/-- Remove the first element satisfying `pred`. -/
def removeFirstBy : List α → (α → Bool) → List α
  | [], _ => []
  | x :: xs, pred => if pred x then xs else x :: removeFirstBy xs pred

/-- Insertion step for `sortDescBy`. -/
def insertDescBy (key : α → Int) (x : α) : List α → List α
  | [] => [x]
  | y :: ys => if key y < key x then x :: y :: ys else y :: insertDescBy key x ys

/-- Sort in descending `key` order (embeds SQL `ORDER BY ... DESC`). -/
def sortDescBy (key : α → Int) : List α → List α
  | [] => []
  | x :: xs => insertDescBy key x (sortDescBy key xs)

/-! ### Python `f"{n:,}"` thousands formatting -/

/-- Insert a comma after every third digit; input is the reversed digit
list, `k` counts digits emitted since the last comma. -/
def insertCommasRev : List Char → Nat → List Char
  | [], _ => []
  | c :: cs, k =>
    if k == 3 then ',' :: c :: insertCommasRev cs 1
    else c :: insertCommasRev cs (k + 1)

/-- Python `format(n, ",")` on a natural number. -/
def commaFmtNat (n : Nat) : String :=
  String.mk (insertCommasRev (toString n).toList.reverse 0).reverse

/-- Python `format(n, ",")` on an integer. -/
def commaFmt (n : Int) : String :=
  if n < 0 then "-" ++ commaFmtNat n.natAbs else commaFmtNat n.natAbs

/-! ### Seed data (`seed_data` in `backend_api.py`) -/

/-- `GDRIVE = lambda file_id: f"https://drive.google.com/uc?export=view&id={file_id}"`. -/
def GDRIVE (file_id : String) : String :=
  "https://drive.google.com/uc?export=view&id=" ++ file_id

/-- The `IMAGES` dict of Google Drive file ids. -/
def IMAGES : String → String
  | "abhinav_gupta" => "1draCBk7T2CTGlipR79rKtoK5-SEE44b6"
  | "manisha_parwani" => "1nM9xCPEhY0KH-wlIBydyE_quZ6b-WnEh"
  | "aviral_sharma" => "1fNi8FjNvo8ZF6Hhi35je0a7vqncOI456"
  | "shruti_khandelwal" => "1bRRmCgBxCcaCVv7SJkhkGQedewFIac3k"
  | "karan_parwani" => "1wMBHbmzKKJ5wy2qstMxsVc5tBCNcLAGk"
  | "naina_pancholi" => "1f8GtGMuwKSjg7arm6prlG_o1mj7ubfYh"
  | "hemang_bhabhra" => "1o0pP18JIBF-FIpJlRTP7liJPbjTlhh2A"
  | "yashika_sharma" => "1tqK20-4gK3olRlO1iLMoZhqGCjKsow5w"
  | "piyush_dhakad" => "1i2vOrN3xiUKkdj84ZmO5FYd1Y3X1dp6G"
  | "anuj_sharma" => "1FX1e2iOgKU7iXORwxIqQqqq84kLigoZP"
  | "byte_busters" => "1BhmUECcEKXmL1YTHZDGk4Gqg9mvrIYWw"
  | "syntax_samurai" => "1gR6F62nA3iKSAw7BIFbEoTw4wxnb6iw9"
  | "ruby_renegades" => "150DuJHO8bc0tZszqDHnDSVHH8UzlNREU"
  | "java_jesters" => "1emUGivwoG8uyEDJiMUkGHhr2qd54gA4a"
  | "python_pioneers" => "1n-4zo5lSfVKY6yi8-Dx6wvZeGoVld59T"
  | "quantum_coder" => "1VUiVlgRuwO9QTT3eSIUEaA0Jc2g6D5L8"
  | "data_mavericks" => "18_Bxr2Z2ZYdUQ6vYl8Qa_ghY2KNyDFiu"
  | "code_commanders" => "19MzUrW05_EskjxOh2zycIJ9ahW8WaxQD"
  | "logic_luminaries" => "105sMt3RaskTQ8naYvQpdmU5l_kg8HfCO"
  | "hiya_arya" => "1PS3tvNFlRqHD7Bkk1j65aKS8E2HRDFsM"
  | "ashank_agrawal" => "1x9znzotyB5m_GtHXQksccn9e8otPuTzp"
  | "sarthak_sinha" => "19hBvipViWQppFZRhh14ZRxJ85ACXLWzn"
  | "manalika_agarwal" => "1xufWMXWBNqpN0QbfTV_lIUMQrJ5umYFX"
  | "somya_upadhyay" => "1um7e3fBVlqHDEsMpllpzQhGrh5yrHSv1"
  | "shripal_sir" => "1Z8gGZpv2zLgMe6slvlm5Qor1TX8DA_-M"
  | "piyush_sir" => "1VaCgOKu-OAXFZE-1_WxTuYER7Qfi-2hd"
  | "anju_mam" => "1VKmkD_CovS7s4uqIuSB6g1qD9JIV8u6a"
  | "vivek_sir" => "1pts3EL3VlpfFlOBhw15xf9V_eNJln-a6"
  | "madan_sir" => "1_Gr4BxzRKUxSgr8KOhqXRboecMzuR3jl"
  | "abhishek_sir" => "1unQYjyqHYrlng_D93IIASGy4UZfbBi1q"
  | "santosh_k_agarwal_sir" => "1unQYjyqHYrlng_D93IIASGy4UZfbBi1q"
  | "santosh_sharma_sir" => "11JPtFiEv7mEwyVkOtpZKVoFMCxcXvraS"
  | "seema_mam" => "1j8JW-NgIHncVaGYoV_FyOd3uq2urZLqr"
  | "archana_mam" => "1BJ8wxvwxIPknWJSU5G1XZnygAcrHfex0"
  | "pankaj_sir" => "1IUDdmLUSaRYONb7zlmWVl31L_E29bvxO"
  | "bimlendu_pathak" => "1PHvkv90fHymfD5G5daDUwgniks6XlFBu"
  | "puneet_sir" => "1wbCk3N_3fk_HrxGW-dzimLkMziTcoz-O"
  | "vishambhar_pathak_sir" => "1ZReej8s92Gz2nNb4XJNbGc0RyuwO2nk1"
  | _ => ""

/-- The 10 `Player` rows inserted by `seed_data`. -/
def seedPlayers : List Player :=
  [ { id := 1, name := "Abhinav Gupta", nickname := "The Strategist", role := "BTECH/25006/23"
    , base_price := 10000, current_bid := 10000, highest_bidder := none
    , image_url := GDRIVE (IMAGES "abhinav_gupta")
    , bio := "DBMS: ⭐⭐⭐⭐⭐ | Python: ⭐⭐⭐⭐⭐ | C/C++: ⭐⭐⭐⭐⭐ | Java: ⭐⭐⭐⭐⭐ | DSA: ⭐⭐"
    , skills := "DBMS,Python,C/C++,Java,DSA", total_bids := 0 }
  , { id := 2, name := "Manisha Parwani", nickname := "Code Ninja", role := "BTECH/25063/23"
    , base_price := 12000, current_bid := 12000, highest_bidder := none
    , image_url := GDRIVE (IMAGES "manisha_parwani")
    , bio := "DBMS: ⭐⭐⭐ | Python: ⭐⭐⭐⭐ | C/C++: ⭐⭐⭐⭐⭐ | Java: ⭐⭐⭐⭐⭐ | DSA: ⭐⭐⭐⭐"
    , skills := "Python,C/C++,Java,DSA", total_bids := 0 }
  , { id := 3, name := "Aviral Sharma", nickname := "Data Wizard", role := "BTECH/25150/23"
    , base_price := 15000, current_bid := 15000, highest_bidder := none
    , image_url := GDRIVE (IMAGES "aviral_sharma")
    , bio := "DBMS: ⭐⭐⭐⭐ | Python: ⭐⭐⭐⭐ | C/C++: ⭐⭐⭐⭐⭐ | Java: ⭐⭐⭐⭐⭐ | DSA: ⭐⭐⭐⭐"
    , skills := "DBMS,Python,C/C++,Java,DSA", total_bids := 0 }
  , { id := 4, name := "Shruti Khandelwal", nickname := "Cloud Queen", role := "MCA/25015/25"
    , base_price := 11000, current_bid := 11000, highest_bidder := none
    , image_url := GDRIVE (IMAGES "shruti_khandelwal")
    , bio := "DBMS: ⭐⭐⭐⭐⭐ | Python: ⭐⭐⭐⭐⭐ | C/C++: ⭐⭐⭐⭐⭐ | Java: ⭐⭐⭐⭐⭐ | DSA: ⭐⭐⭐⭐"
    , skills := "DBMS,Python,C/C++,Java,DSA", total_bids := 0 }
  , { id := 5, name := "Karan Parwani", nickname := "Full Stack Pro", role := "MCA/25007/25"
    , base_price := 13000, current_bid := 13000, highest_bidder := none
    , image_url := GDRIVE (IMAGES "karan_parwani")
    , bio := "DBMS: ⭐⭐⭐⭐⭐ | Python: ⭐⭐⭐⭐⭐ | C/C++: ⭐⭐⭐⭐⭐ | Java: ⭐⭐⭐⭐⭐ | DSA: ⭐⭐⭐"
    , skills := "DBMS,Python,C/C++,Java,DSA", total_bids := 0 }
  , { id := 6, name := "Naina V Pancholi", nickname := "Backend Expert", role := "BTECH/25030/22"
    , base_price := 14000, current_bid := 14000, highest_bidder := none
    , image_url := GDRIVE (IMAGES "naina_pancholi")
    , bio := "DBMS: ⭐⭐⭐ | Python: ⭐⭐⭐⭐ | C/C++: ⭐⭐⭐⭐⭐ | Java: ⭐⭐⭐⭐⭐ | DSA: ⭐⭐⭐⭐"
    , skills := "DBMS,Python,C/C++,Java,DSA", total_bids := 0 }
  , { id := 7, name := "Hemang Bhabhra", nickname := "Algorithm Master", role := "BTECH/25027/22"
    , base_price := 12500, current_bid := 12500, highest_bidder := none
    , image_url := GDRIVE (IMAGES "hemang_bhabhra")
    , bio := "DBMS: ⭐⭐⭐⭐⭐ | Python: ⭐⭐⭐⭐⭐ | C/C++: ⭐⭐⭐⭐⭐ | Java: ⭐⭐⭐⭐⭐ | DSA: ⭐⭐⭐⭐"
    , skills := "DBMS,Python,C/C++,Java,DSA", total_bids := 0 }
  , { id := 8, name := "Yashika Sharma", nickname := "Frontend Wizard", role := "MSCAI/25002/25"
    , base_price := 11500, current_bid := 11500, highest_bidder := none
    , image_url := GDRIVE (IMAGES "yashika_sharma")
    , bio := "DBMS: ⭐⭐⭐⭐⭐ | Python: ⭐⭐⭐⭐⭐ | C/C++: ⭐⭐⭐⭐ | Java: ⭐⭐⭐⭐ | DSA: ⭐⭐⭐⭐"
    , skills := "DBMS,Python,C/C++,Java,DSA", total_bids := 0 }
  , { id := 9, name := "Piyush Singh Dhakad", nickname := "DevOps Guru", role := "MSCAI/25005/25"
    , base_price := 13500, current_bid := 13500, highest_bidder := none
    , image_url := GDRIVE (IMAGES "piyush_dhakad")
    , bio := "DBMS: ⭐⭐⭐⭐ | Python: ⭐⭐⭐⭐ | C/C++: ⭐⭐⭐⭐⭐ | Java: ⭐⭐⭐⭐ | DSA: ⭐⭐⭐⭐"
    , skills := "DBMS,Python,C/C++,Java,DSA", total_bids := 0 }
  , { id := 10, name := "Anuj Sharma", nickname := "ML Engineer", role := "MCA/25022/25"
    , base_price := 12000, current_bid := 12000, highest_bidder := none
    , image_url := GDRIVE (IMAGES "anuj_sharma")
    , bio := "DBMS: ⭐⭐⭐⭐ | Python: ⭐⭐⭐⭐ | C/C++: ⭐⭐⭐⭐ | Java: ⭐⭐⭐⭐⭐ | DSA: ⭐⭐⭐⭐"
    , skills := "DBMS,Python,C/C++,Java,DSA", total_bids := 0 } ]

/-- The 9 `Poll` rows inserted by `seed_data` when the poll table is empty. -/
def seedPolls : List Poll :=
  [ { team_name := "Byte Busters", votes := 0, image_url := GDRIVE (IMAGES "byte_busters"), video_url := "" }
  , { team_name := "Syntax Samurai", votes := 0, image_url := GDRIVE (IMAGES "syntax_samurai"), video_url := "" }
  , { team_name := "Ruby Renegades", votes := 0, image_url := GDRIVE (IMAGES "ruby_renegades"), video_url := "" }
  , { team_name := "Java Jesters", votes := 0, image_url := GDRIVE (IMAGES "java_jesters"), video_url := "" }
  , { team_name := "Python Pioneers", votes := 0, image_url := GDRIVE (IMAGES "python_pioneers"), video_url := "" }
  , { team_name := "Quantum Coders", votes := 0, image_url := GDRIVE (IMAGES "quantum_coder"), video_url := "" }
  , { team_name := "Data Mavericks", votes := 0, image_url := GDRIVE (IMAGES "data_mavericks"), video_url := "" }
  , { team_name := "Code Commanders", votes := 0, image_url := GDRIVE (IMAGES "code_commanders"), video_url := "" }
  , { team_name := "Logic Luminaries", votes := 0, image_url := GDRIVE (IMAGES "logic_luminaries"), video_url := "" } ]

/-- The two Faculty Advisor `Person` rows (also force-reseeded by `/api/people`). -/
def seedFaculty : List Person :=
  [ { name := "Shripal Sir", role := "Faculty Advisor", email := "shripal@college.edu"
    , bio := "Senior faculty overseeing Battle of Bytes."
    , image_url := GDRIVE (IMAGES "shripal_sir")
    , social_handle := none, video_url := none, mentor_image_url := none }
  , { name := "Piyush Sir", role := "Faculty Advisor", email := "piyush@college.edu"
    , bio := "Faculty coordinator managing logistics."
    , image_url := GDRIVE (IMAGES "piyush_sir")
    , social_handle := none, video_url := none, mentor_image_url := none } ]

/-- The 16 `Person` rows inserted by `seed_data`. -/
def seedPeople : List Person :=
  [ { name := "Hiya Arya", role := "Head Coordinator", email := "hiya@bob.com"
    , bio := "Promotion & Operation Lead", image_url := GDRIVE (IMAGES "hiya_arya")
    , social_handle := some "@hushhiya", video_url := none, mentor_image_url := none }
  , { name := "Ashank Agrawal", role := "Head Coordinator", email := "ashank@bob.com"
    , bio := "Co Tech Lead", image_url := GDRIVE (IMAGES "ashank_agrawal")
    , social_handle := some "@ashankagrawal", video_url := none, mentor_image_url := none }
  , { name := "Sarthak Sinha", role := "Head Coordinator", email := "sarthak@bob.com"
    , bio := "Design & Social Media Lead", image_url := GDRIVE (IMAGES "sarthak_sinha")
    , social_handle := some "@sarthak.sinhahaha", video_url := none, mentor_image_url := none }
  , { name := "Manalika Agarwal", role := "Head Coordinator", email := "manalika@bob.com"
    , bio := "Co Tech Lead", image_url := GDRIVE (IMAGES "manalika_agarwal")
    , social_handle := some "@manalika__", video_url := none, mentor_image_url := none }
  , { name := "Somya Upadhyay", role := "Head Coordinator", email := "somya@bob.com"
    , bio := "Sponsorship Lead", image_url := GDRIVE (IMAGES "somya_upadhyay")
    , social_handle := some "@__.somyaaaaa__", video_url := none, mentor_image_url := none }
  , { name := "Byte Busters", role := "Bidding Team", email := "busters@team.com"
    , bio := "Mentored by Anju Ma\x27am. Risk-takers and crowd favorites."
    , image_url := GDRIVE (IMAGES "byte_busters")
    , social_handle := none, video_url := none, mentor_image_url := some (GDRIVE (IMAGES "anju_mam")) }
  , { name := "Syntax Samurai", role := "Bidding Team", email := "samurai@team.com"
    , bio := "Mentored by Vivek Gaur Sir & Madan Sir. Precision bidding experts."
    , image_url := GDRIVE (IMAGES "syntax_samurai")
    , social_handle := none, video_url := none, mentor_image_url := some (GDRIVE (IMAGES "vivek_sir")) }
  , { name := "Ruby Renegades", role := "Bidding Team", email := "renegades@team.com"
    , bio := "Mentored by Abhishek Sir & Santosh Kumar Agarwal Sir. The dark horse team."
    , image_url := GDRIVE (IMAGES "ruby_renegades")
    , social_handle := none, video_url := none, mentor_image_url := some (GDRIVE (IMAGES "abhishek_sir")) }
  , { name := "Java Jesters", role := "Bidding Team", email := "jesters@team.com"
    , bio := "Mentored by Santosh Sharma Sir. Meticulous planners."
    , image_url := GDRIVE (IMAGES "java_jesters")
    , social_handle := none, video_url := none, mentor_image_url := some (GDRIVE (IMAGES "santosh_sharma_sir")) }
  , { name := "Python Pioneers", role := "Bidding Team", email := "pioneers@team.com"
    , bio := "Mentored by Seema Ma\x27am & Archana Ma\x27am. Data science specialists."
    , image_url := GDRIVE (IMAGES "python_pioneers")
    , social_handle := none, video_url := none, mentor_image_url := some (GDRIVE (IMAGES "seema_mam")) }
  , { name := "Quantum Coders", role := "Bidding Team", email := "quantum@team.com"
    , bio := "Mentored by Pankaj Sir. Deep pockets, high potential focus."
    , image_url := GDRIVE (IMAGES "quantum_coder")
    , social_handle := none, video_url := none, mentor_image_url := some (GDRIVE (IMAGES "pankaj_sir")) }
  , { name := "Data Mavericks", role := "Bidding Team", email := "mavericks@team.com"
    , bio := "Mentored by B. Pathak Sir. Backend database experts."
    , image_url := GDRIVE (IMAGES "data_mavericks")
    , social_handle := none, video_url := none, mentor_image_url := some (GDRIVE (IMAGES "bimlendu_pathak")) }
  , { name := "Code Commanders", role := "Bidding Team", email := "commanders@team.com"
    , bio := "Mentored by Puneet Sir. Strategic budget managers."
    , image_url := GDRIVE (IMAGES "code_commanders")
    , social_handle := none, video_url := none, mentor_image_url := some (GDRIVE (IMAGES "puneet_sir")) }
  , { name := "Logic Luminaries", role := "Bidding Team", email := "luminaries@team.com"
    , bio := "Mentored by Vishambhar Pathak Sir. Data-driven analysts."
    , image_url := GDRIVE (IMAGES "logic_luminaries")
    , social_handle := none, video_url := none, mentor_image_url := some (GDRIVE (IMAGES "vishambhar_pathak_sir")) } ]
  ++ seedFaculty

/-- `seed_data`, with `now` the value of `datetime.utcnow()` during the call:
clear bids+players when players exist, insert the 10 players, insert the 9
poll teams when the poll table is empty, replace all people, and insert the
singleton `Setting` row (`end_time = now + 72h`) when the table is empty. -/
def seed_data (now : Int) (s : St) : St :=
  let s1 := if s.players.length > 0 then { s with bids := [], players := [] } else s
  let s2 := { s1 with players := seedPlayers }
  let s3 := if s2.polls.length == 0 then { s2 with polls := seedPolls } else s2
  let s4 := if s3.people.length > 0 then { s3 with people := [] } else s3
  let s5 := { s4 with people := seedPeople }
  if s5.settings.length == 0 then
    { s5 with settings := [{ id := 1, end_time := now + 72 * 3600 }] }
  else s5

/-! ### Helper functions of the API layer -/

/-- `session.query(Player).filter_by(id=player_id).first()`. -/
def findPlayer (s : St) (pid : Int) : Option Player :=
  s.players.find? (fun p => p.id == pid)

/-- `log_activity(type, description)`: append one `ActivityLog` row. -/
def log_activity (ty descr : String) (t : Int) (s : St) : St :=
  { s with activity := s.activity ++ [{ type := ty, description := descr, timestamp := t }] }

/-- `SUM(players.current_bid)` with SQL `NULL` coerced to 0 by the
handler's `or 0` (the sum of an empty list is 0, matching it). -/
def sumCurrentBids (s : St) : Int :=
  (s.players.map (fun p => p.current_bid)).sum

/-! ### `/api/bid` (`api_place_bid`) -/

/-- Responses of the bid endpoint: HTTP 200 / 404 / 400 / 500.  The 500
body is `str(e)` of the raised exception, which we do not model. -/
inductive BidResp where
  | success : BidResp
  | notFound : BidResp
  | invalid (msg : String) : BidResp
  | serverErr : BidResp
deriving DecidableEq

/-- The three assignments a successful bid applies to the player row:
`current_bid = amount`, `highest_bidder = bidder`, `total_bids += 1`. -/
def bumpPlayer (bidder : String) (amt : Int) (p : Player) : Player :=
  { p with current_bid := amt, highest_bidder := some bidder, total_bids := p.total_bids + 1 }

/-- The `Bid(...)` row a successful bid inserts. -/
def mkBid (bid_id pid : Int) (bidder : String) (amt t : Int) : Bid :=
  { id := bid_id, player_id := pid, bidder_name := bidder, bid_amount := amt, timestamp := t }

/-- Core of `api_place_bid` after the three request fields parsed: look up
the player; 404 when absent; 400 carrying the current-bid floor when
`bid_amount <= player.current_bid`; otherwise update the player row, insert
a `Bid` row, commit, and append the activity entry.  `t` is `utcnow()`. -/
def place_bid (pid : Int) (bidder : String) (amt t : Int) (s : St) : BidResp × St :=
  match findPlayer s pid with
  | none => (BidResp.notFound, s)
  | some player =>
    if amt ≤ player.current_bid then
      (BidResp.invalid ("Bid must be > $" ++ commaFmt player.current_bid), s)
    else
      let s1 := { s with
        players := updateFirstBy s.players (fun p => p.id == pid) (bumpPlayer bidder amt)
        , bids := s.bids ++ [mkBid s.next_bid_id pid bidder amt t]
        , next_bid_id := s.next_bid_id + 1 }
      let s2 := log_activity "bid"
        (bidder ++ " bid $" ++ commaFmt amt ++ " on " ++ player.name) t s1
      (BidResp.success, s2)

/-- The full `/api/bid` handler, request parsing included: `none` models a
missing field or a value on which `int(...)` raises, which the bare
`except` turns into a 500 response (rollback leaves the store unchanged,
since the exception fires before any query). -/
def api_place_bid (player_id : Option Int) (bidder_name : Option String)
    (bid_amount : Option Int) (t : Int) (s : St) : BidResp × St :=
  match player_id, bidder_name, bid_amount with
  | some pid, some bidder, some amt => place_bid pid bidder amt t s
  | _, _, _ => (BidResp.serverErr, s)

/-! ### `/api/poll/vote` (`api_vote`) -/

/-- Responses of the vote endpoint (200 / 404; the 500 path only fires on
storage failure, which the pure model has no analogue of). -/
inductive VoteResp where
  | success : VoteResp
  | notFound : VoteResp
deriving DecidableEq

/-- `api_vote`: find the poll row by team name; 404 when absent; otherwise
increment its `votes` by one, commit, and log a "poll" activity entry. -/
def api_vote (team_name : String) (t : Int) (s : St) : VoteResp × St :=
  match s.polls.find? (fun p => p.team_name == team_name) with
  | none => (VoteResp.notFound, s)
  | some _ =>
    let s1 := { s with
      polls := updateFirstBy s.polls (fun p => p.team_name == team_name)
        (fun p => { p with votes := p.votes + 1 }) }
    (VoteResp.success, log_activity "poll" ("Vote for " ++ team_name) t s1)

/-- `reset_poll_votes` (the scheduled midnight job): zero every vote count. -/
def reset_poll_votes (s : St) : St :=
  { s with polls := s.polls.map (fun p => { p with votes := 0 }) }

/-! ### `/api/enquiry` (`api_enquiry`) -/

/-- `api_enquiry` success path: insert the enquiry and log the activity. -/
def api_enquiry (name email message : String) (t : Int) (s : St) : Bool × St :=
  let s1 := { s with enquiries := s.enquiries ++ [{ name := name, email := email
                                                  , message := message, timestamp := t }] }
  (true, log_activity "enquiry" ("Enquiry from " ++ name) t s1)

/-! ### Read endpoints -/

/-- `/api/players`: all players ordered by `current_bid` descending. -/
def api_players (s : St) : List Player × St :=
  (sortDescBy (fun p => p.current_bid) s.players, s)

/-- Payload of `/api/players/<id>`. -/
structure PlayerDetail where
  player : Player
  bid_history : List Bid
deriving DecidableEq

/-- `/api/players/<id>`: the player plus its 10 most recent bids, newest
first; `none` models the 404 response. -/
def api_player_detail (pid : Int) (s : St) : Option PlayerDetail × St :=
  match findPlayer s pid with
  | none => (none, s)
  | some p =>
    (some { player := p
          , bid_history :=
              (sortDescBy (fun b => b.timestamp)
                (s.bids.filter (fun b => b.player_id == pid))).take 10 }, s)

/-- `/api/poll`: delete the first `Code Trail` row when one exists, then
return all teams ordered by votes descending, filtering `Code Trail` out
of the response a second time. -/
def api_poll (s : St) : List Poll × St :=
  let s1 :=
    match s.polls.find? (fun p => p.team_name == "Code Trail") with
    | none => s
    | some _ => { s with polls := removeFirstBy s.polls (fun p => p.team_name == "Code Trail") }
  ((sortDescBy (fun p => p.votes) s1.polls).filter (fun p => p.team_name != "Code Trail"), s1)

/-- State effect of `/api/people`: when no `Faculty Advisor` row exists,
delete that (empty) bucket and insert the two faculty rows; otherwise the
handler only reads.  The response assembly (bucketing by role, mentor-image
fallbacks) builds Python dicts and never writes the store. -/
def api_people (s : St) : St :=
  if (s.people.filter (fun p => p.role == "Faculty Advisor")).isEmpty then
    { s with people := s.people.filter (fun p => !(p.role == "Faculty Advisor")) ++ seedFaculty }
  else s

/-- Payload of `/api/status`. -/
structure StatusOut where
  end_time : Int
  time_remaining : Int
  total_bids : Int
  total_value : Int
deriving DecidableEq

/-- `/api/status`: when the `Setting` row `id=1` is absent, run `seed_data`
and re-fetch; then report the end time, `max(0, end_time - now)`, the count
of all bid rows, and the sum of all current bids (`or 0`).  `none` models
the 500 path (row still absent after reseeding). -/
def api_status (now : Int) (s : St) : Option StatusOut × St :=
  let s1 :=
    match s.settings.find? (fun x => x.id == 1) with
    | some _ => s
    | none => seed_data now s
  match s1.settings.find? (fun x => x.id == 1) with
  | none => (none, s1)
  | some setting =>
    (some { end_time := setting.end_time
          , time_remaining := max 0 (setting.end_time - now)
          , total_bids := (s1.bids.length : Int)
          , total_value := sumCurrentBids s1 }, s1)

/-- `/api/activity`: the 30 most recent activity entries, newest first. -/
def api_activity (s : St) : List ActivityEntry × St :=
  ((sortDescBy (fun a => a.timestamp) s.activity).take 30, s)

/-! ### System operations and traces -/

/-- One invocation of any store-touching operation of the system. -/
inductive Op where
  | seedOp (now : Int)
  | bidOp (player_id : Option Int) (bidder_name : Option String) (bid_amount : Option Int) (t : Int)
  | voteOp (team_name : String) (t : Int)
  | resetOp
  | enquiryOp (name email message : String) (t : Int)
  | pollReadOp
  | peopleReadOp
  | statusReadOp (now : Int)
  | playersReadOp
  | playerDetailOp (pid : Int)
  | activityReadOp

/-- The state transition of one operation. -/
def step (op : Op) (s : St) : St :=
  match op with
  | Op.seedOp now => seed_data now s
  | Op.bidOp pid b amt t => (api_place_bid pid b amt t s).2
  | Op.voteOp n t => (api_vote n t s).2
  | Op.resetOp => reset_poll_votes s
  | Op.enquiryOp n e m t => (api_enquiry n e m t s).2
  | Op.pollReadOp => (api_poll s).2
  | Op.peopleReadOp => api_people s
  | Op.statusReadOp now => (api_status now s).2
  | Op.playersReadOp => (api_players s).2
  | Op.playerDetailOp pid => (api_player_detail pid s).2
  | Op.activityReadOp => (api_activity s).2

/-- Run a sequence of operations. -/
def applyAll (ops : List Op) (s : St) : St :=
  ops.foldl (fun st op => step op st) s

/-! ### Interleaved bids (the unlocked read-validate-write race)

`api_place_bid` queries the player with a plain `filter_by(id=...)` —
no `with_for_update`, no lock — validates against the fetched copy, then
writes the copy's fields back and commits.  Two concurrent requests use
two independent sessions, so both reads can happen before either commit.
The functions below embed one request split at its suspension point:
`bid_read` is the session's SELECT, `bid_commit` the flush+COMMIT of the
session-local object state. -/

/-- One in-flight bid request. -/
structure BidTxn where
  pid : Int
  bidder : String
  amount : Int
  t : Int
deriving DecidableEq

/-- The session's SELECT: snapshot the player row. -/
def bid_read (txn : BidTxn) (db : St) : Option Player :=
  findPlayer db txn.pid

/-- The session's flush+COMMIT: overwrite the row with the session-local
object (snapshot) state and insert the new `Bid` row. -/
def bid_commit (txn : BidTxn) (snap : Player) (db : St) : St :=
  { db with
    players := updateFirstBy db.players (fun p => p.id == txn.pid)
      (fun _ => bumpPlayer txn.bidder txn.amount snap)
    , bids := db.bids ++ [mkBid db.next_bid_id txn.pid txn.bidder txn.amount txn.t]
    , next_bid_id := db.next_bid_id + 1 }

/-- The interleaving `A reads; B reads; B validates+commits; A
validates+commits`: each handler validates against its own stale snapshot,
exactly as the unlocked code permits. -/
def run_race (a b : BidTxn) (db : St) : BidResp × BidResp × St :=
  match bid_read a db, bid_read b db with
  | some snapA, some snapB =>
    if b.amount ≤ snapB.current_bid then
      if a.amount ≤ snapA.current_bid then
        (BidResp.invalid ("Bid must be > $" ++ commaFmt snapA.current_bid),
         BidResp.invalid ("Bid must be > $" ++ commaFmt snapB.current_bid), db)
      else
        (BidResp.success, BidResp.invalid ("Bid must be > $" ++ commaFmt snapB.current_bid),
         bid_commit a snapA db)
    else
      let db1 := bid_commit b snapB db
      if a.amount ≤ snapA.current_bid then
        (BidResp.invalid ("Bid must be > $" ++ commaFmt snapA.current_bid),
         BidResp.success, db1)
      else
        (BidResp.success, BidResp.success, bid_commit a snapA db1)
  | _, _ => (BidResp.notFound, BidResp.notFound, db)

/-! ### Store invariants -/

/-- Every player's current bid is at least its base price (spec §8). -/
def PriceInv (s : St) : Prop :=
  ∀ p ∈ s.players, p.base_price ≤ p.current_bid

/-- Every seeded player starts with `current_bid = base_price`. -/
def SeededAtBase (s : St) : Prop :=
  ∀ p ∈ s.players, p.current_bid = p.base_price

/-- Every player's `total_bids` equals the number of `Bid` rows that
reference it (spec §3, Player invariants). -/
def BidCountInv (s : St) : Prop :=
  ∀ p ∈ s.players, p.total_bids = ((s.bids.filter (fun b => b.player_id == p.id)).length : Int)

/-- Referential integrity of the `bids.player_id` foreign key. -/
def RefIntInv (s : St) : Prop :=
  ∀ b ∈ s.bids, ∃ p ∈ s.players, p.id = b.player_id

/-- Player primary keys are pairwise distinct. -/
def IdsNodup (s : St) : Prop :=
  (s.players.map (fun p => p.id)).Nodup

/-- The inductive invariant carried through every operation. -/
def StoreInv (s : St) : Prop :=
  BidCountInv s ∧ RefIntInv s ∧ IdsNodup s

/-! ### Witness fixtures: small concrete stores -/

/-- A player with base price 10000 and no bids (the spec's worked example). -/
def wPlayer : Player :=
  { id := 1, name := "Abhinav Gupta", nickname := "The Strategist", role := "BTECH/25006/23"
  , base_price := 10000, current_bid := 10000, highest_bidder := none
  , image_url := "", bio := "", skills := "", total_bids := 0 }

/-- A store holding just `wPlayer`. -/
def wSt : St := { emptySt with players := [wPlayer] }

/-- A two-team poll store used to witness C6. -/
def wPollSt : St :=
  { emptySt with polls :=
      [ { team_name := "Byte Busters", votes := 3, image_url := "", video_url := "" }
      , { team_name := "Java Jesters", votes := 5, image_url := "", video_url := "" } ] }

/-- A playerless store with the setting row, used to witness C7. -/
def wStatusSt : St := { emptySt with settings := [{ id := 1, end_time := 500 }] }

/-- A store whose poll table holds a `Code Trail` row (C5 counterexample). -/
def codeTrailSt : St :=
  { emptySt with polls := [{ team_name := "Code Trail", votes := 0, image_url := "", video_url := "" }] }

/-- A store meeting the amended C5 preconditions: no `Code Trail` row, a
faculty person present, the setting row present. -/
def wReadSt : St :=
  { emptySt with
    polls := [{ team_name := "Byte Busters", votes := 2, image_url := "", video_url := "" }]
  , people := [{ name := "Shripal Sir", role := "Faculty Advisor", email := "shripal@college.edu"
               , bio := "", image_url := "", social_handle := none, video_url := none
               , mentor_image_url := none }]
  , settings := [{ id := 1, end_time := 100 }] }

/-! ## Lemmas -/

/-- A successful `find?` splits the list at the first hit, and
`updateFirstBy` rewrites exactly that element. -/
theorem find?_decomp {α : Type} (pred : α → Bool) :
    ∀ (l : List α) (a : α), l.find? pred = some a →
      ∃ l1 l2, l = l1 ++ a :: l2 ∧ (∀ x ∈ l1, pred x = false) ∧ pred a = true ∧
        ∀ f, updateFirstBy l pred f = l1 ++ f a :: l2
  | [], a, h => by simp [List.find?] at h
  | x :: xs, a, h => by
    by_cases hx : pred x
    · rw [List.find?_cons_of_pos _ hx] at h
      cases h
      exact ⟨[], xs, rfl, by simp, hx, fun f => by simp [updateFirstBy, hx]⟩
    · rw [List.find?_cons_of_neg _ hx] at h
      obtain ⟨l1, l2, hdec, hl1, hpa, hupd⟩ := find?_decomp pred xs a h
      refine ⟨x :: l1, l2, by simp [hdec], ?_, hpa, fun f => ?_⟩
      · intro y hy
        rcases List.mem_cons.mp hy with rfl | hy
        · exact eq_false_of_ne_true hx
        · exact hl1 y hy
      · simp [updateFirstBy, hx, hupd f]

/-- Membership in `updateFirstBy`: every element of the result is an
untouched original or the image of the first hit. -/
theorem mem_updateFirstBy {α : Type} {pred : α → Bool} {f : α → α} {l : List α} {a x : α}
    (hfind : l.find? pred = some a) (hx : x ∈ updateFirstBy l pred f) :
    x ∈ l ∨ x = f a := by
  obtain ⟨l1, l2, hdec, -, -, hupd⟩ := find?_decomp pred l a hfind
  rw [hupd f] at hx
  rcases List.mem_append.mp hx with h1 | h2
  · exact Or.inl (hdec ▸ List.mem_append.mpr (Or.inl h1))
  · rcases List.mem_cons.mp h2 with rfl | h2
    · exact Or.inr rfl
    · exact Or.inl (hdec ▸ List.mem_append.mpr (Or.inr (List.mem_cons_of_mem _ h2)))

/-! ## Claims -/

/-- C1: when the player id references an existing `Player` and the amount is
strictly greater than that player's current stored bid, `place_bid` succeeds
and, in the same commit, sets that player's `current_bid` to the amount,
`highest_bidder` to the bidder name, increments `total_bids` by one, and
appends one immutable `Bid` row for that player with the same amount; every
other player row is untouched. -/
theorem c1_place_bid_success (s : St) (pid amt t : Int) (bidder : String) (player : Player)
    (hfind : findPlayer s pid = some player) (hgt : player.current_bid < amt) :
    (place_bid pid bidder amt t s).1 = BidResp.success ∧
    ∃ l1 l2, s.players = l1 ++ player :: l2 ∧
      (place_bid pid bidder amt t s).2.players =
        l1 ++ { player with current_bid := amt, highest_bidder := some bidder
                          , total_bids := player.total_bids + 1 } :: l2 ∧
      (place_bid pid bidder amt t s).2.bids =
        s.bids ++ [{ id := s.next_bid_id, player_id := pid, bidder_name := bidder
                   , bid_amount := amt, timestamp := t }] := by
  have hfind' : s.players.find? (fun (p : Player) => p.id == pid) = some player := hfind
  obtain ⟨l1, l2, hdec, hl1, hpa, hupd⟩ :=
    find?_decomp (fun (p : Player) => p.id == pid) s.players player hfind'
  have hnle : ¬ amt ≤ player.current_bid := not_le.mpr hgt
  refine ⟨?_, l1, l2, hdec, ?_, ?_⟩ <;>
    simp [place_bid, hfind, hnle, log_activity, hupd, bumpPlayer, mkBid]

/-- C1 witness: on a store with one player at base price 10000 and no bids,
a bid of 10001 succeeds and leaves `current_bid = 10001` and
`highest_bidder` equal to the caller. -/
theorem c1_witness :
    (place_bid 1 "Byte Busters" 10001 0 wSt).1 = BidResp.success ∧
    (findPlayer (place_bid 1 "Byte Busters" 10001 0 wSt).2 1).map
      (fun p => (p.current_bid, p.highest_bidder, p.total_bids)) =
      some (10001, some "Byte Busters", 1) ∧
    (place_bid 1 "Byte Busters" 10001 0 wSt).2.bids.map (fun b => (b.player_id, b.bid_amount)) =
      [(1, 10001)] := by
  have h := c1_place_bid_success wSt 1 10001 0 "Byte Busters" wPlayer rfl (by decide)
  exact ⟨h.1, by decide, by decide⟩

/-- C2: `place_bid` answers 404 `NotFound` exactly when the player id
references no row, and — when the player exists — answers 400 `InvalidBid`
with the current stored bid in the message, leaving the store unchanged,
exactly when the amount is not strictly greater than that current bid (so
an amount equal to the current bid is rejected). -/
theorem c2_place_bid_errors (s : St) (pid amt t : Int) (bidder : String) :
    ((place_bid pid bidder amt t s).1 = BidResp.notFound ↔ findPlayer s pid = none) ∧
    ∀ player, findPlayer s pid = some player →
      (((place_bid pid bidder amt t s).1
          = BidResp.invalid ("Bid must be > $" ++ commaFmt player.current_bid)
        ∧ (place_bid pid bidder amt t s).2 = s) ↔ amt ≤ player.current_bid) := by
  constructor
  · cases hf : findPlayer s pid with
    | none => simp [place_bid, hf]
    | some player =>
      by_cases h : amt ≤ player.current_bid <;> simp [place_bid, hf, h]
  · intro player hf
    by_cases h : amt ≤ player.current_bid <;> simp [place_bid, hf, h]

/-- C2 witness: on `wSt` (one player, current bid 10000), a bid on an
unknown id answers `NotFound`; a bid of exactly 10000 answers `InvalidBid`
carrying the floor `$10,000` and leaves the store unchanged. -/
theorem c2_witness :
    (place_bid 99 "Syntax Samurai" 50000 0 wSt).1 = BidResp.notFound ∧
    (place_bid 1 "Syntax Samurai" 10000 0 wSt).1 = BidResp.invalid "Bid must be > $10,000" ∧
    (place_bid 1 "Syntax Samurai" 10000 0 wSt).2 = wSt := by
  have h1 := (c2_place_bid_errors wSt 99 50000 0 "Syntax Samurai").1
  have h2 := (c2_place_bid_errors wSt 1 10000 0 "Syntax Samurai").2 wPlayer rfl
  have h3 := h2.mpr (by decide)
  refine ⟨h1.mpr (by decide), ?_, h3.2⟩
  have hm : ("Bid must be > $" ++ commaFmt wPlayer.current_bid) = "Bid must be > $10,000" := by
    decide
  exact hm ▸ h3.1

/-- C6: `api_vote` answers `NotFound` and leaves the whole store — in
particular every vote count — unchanged when no poll row carries the given
team name; when one does, it succeeds and increments exactly the first such
row's counter by one, preserving every other row. -/
theorem c6_vote_exact (s : St) (team : String) (t : Int) :
    (s.polls.find? (fun p => p.team_name == team) = none →
      api_vote team t s = (VoteResp.notFound, s)) ∧
    ∀ opt, s.polls.find? (fun p => p.team_name == team) = some opt →
      (api_vote team t s).1 = VoteResp.success ∧
      ∃ l1 l2, s.polls = l1 ++ opt :: l2 ∧
        (∀ q ∈ l1, (q.team_name == team) = false) ∧
        (api_vote team t s).2.polls = l1 ++ { opt with votes := opt.votes + 1 } :: l2 := by
  constructor
  · intro hf
    simp [api_vote, hf]
  · intro opt hf
    obtain ⟨l1, l2, hdec, hl1, hpa, hupd⟩ :=
      find?_decomp (fun (p : Poll) => p.team_name == team) s.polls opt hf
    exact ⟨by simp [api_vote, hf], l1, l2, hdec, hl1, by simp [api_vote, hf, log_activity, hupd]⟩

/-- C6 witness: voting for an unknown team on `wPollSt` answers `NotFound`
and changes nothing; voting for `Java Jesters` increments only its count. -/
theorem c6_witness :
    api_vote "Quantum Coders" 7 wPollSt = (VoteResp.notFound, wPollSt) ∧
    (api_vote "Java Jesters" 7 wPollSt).1 = VoteResp.success ∧
    (api_vote "Java Jesters" 7 wPollSt).2.polls.map (fun p => (p.team_name, p.votes)) =
      [("Byte Busters", 3), ("Java Jesters", 6)] := by
  have h1 := (c6_vote_exact wPollSt "Quantum Coders" 7).1 (by decide)
  have h2 := (c6_vote_exact wPollSt "Java Jesters" 7).2
    { team_name := "Java Jesters", votes := 5, image_url := "", video_url := "" } (by decide)
  exact ⟨h1, h2.1, by decide⟩

/-- C7: with the singleton `Setting` row present, `/api/status` reports
`time_remaining = max 0 (end_time - now)`, `total_bids` equal to the count
of all `Bid` rows, and `total_value` equal to the sum of all players'
`current_bid` — 0, not an error, when there are no players — and leaves
the store unchanged. -/
theorem c7_status_report (s : St) (now : Int) (setting : Setting)
    (hset : s.settings.find? (fun x => x.id == 1) = some setting) :
    (api_status now s).1 = some { end_time := setting.end_time, time_remaining := max 0 (setting.end_time - now), total_bids := (s.bids.length : Int), total_value := sumCurrentBids s } ∧
    (api_status now s).2 = s ∧
    (s.players = [] → sumCurrentBids s = 0) := by
  exact ⟨by simp [api_status, hset], by simp [api_status, hset],
         fun h => by simp [sumCurrentBids, h]⟩

/-- C7 witness: on a store with end time 500, no bids and no players,
status at `now = 200` reports 300 seconds remaining, 0 bids and total
value 0 (not an error); at `now = 800` the remaining time clamps to 0. -/
theorem c7_witness :
    (api_status 200 wStatusSt).1 =
      some { end_time := 500, time_remaining := 300, total_bids := 0, total_value := 0 } ∧
    (api_status 800 wStatusSt).1 =
      some { end_time := 500, time_remaining := 0, total_bids := 0, total_value := 0 } := by
  have h1 := c7_status_report wStatusSt 200 { id := 1, end_time := 500 } rfl
  have h2 := c7_status_report wStatusSt 800 { id := 1, end_time := 500 } rfl
  exact ⟨h1.1.trans (by decide), h2.1.trans (by decide)⟩

/-- `seed_data` always leaves exactly the 10 seed players. -/
theorem seed_data_players (now : Int) (s : St) : (seed_data now s).players = seedPlayers := by
  simp only [seed_data]
  split_ifs <;> rfl

/-- `seed_data` always leaves exactly the 16 seed people. -/
theorem seed_data_people (now : Int) (s : St) : (seed_data now s).people = seedPeople := by
  simp only [seed_data]
  split_ifs <;> rfl

/-- `seed_data` touches the poll table only when it is empty. -/
theorem seed_data_polls (now : Int) (s : St) :
    (seed_data now s).polls = if s.polls.length == 0 then seedPolls else s.polls := by
  simp only [seed_data]
  split_ifs <;> rfl

/-- `seed_data` touches the settings table only when it is empty. -/
theorem seed_data_settings (now : Int) (s : St) :
    (seed_data now s).settings =
      if s.settings.length == 0 then [{ id := 1, end_time := now + 72 * 3600 }]
      else s.settings := by
  simp only [seed_data]
  split_ifs <;> rfl

/-- `seed_data` clears the bid table when players exist, else keeps it. -/
theorem seed_data_bids (now : Int) (s : St) :
    (seed_data now s).bids = if s.players.length > 0 then [] else s.bids := by
  simp only [seed_data]
  split_ifs <;> rfl

/-- C8: a second invocation of `seed_data` on any store produces no
duplicate rows — the Player, Poll, Person and AuctionSetting row counts
after the second invocation equal those after the first — and `seed_data`
ensures exactly one `Setting` row exists (from at most one), creating it
with end time `now + 72h` exactly when the table was empty and leaving it
untouched otherwise. -/
theorem c8_seed_idempotent (s : St) (t1 t2 : Int) :
    (seed_data t2 (seed_data t1 s)).players.length = (seed_data t1 s).players.length ∧
    (seed_data t2 (seed_data t1 s)).polls.length = (seed_data t1 s).polls.length ∧
    (seed_data t2 (seed_data t1 s)).people.length = (seed_data t1 s).people.length ∧
    (seed_data t2 (seed_data t1 s)).settings.length = (seed_data t1 s).settings.length ∧
    (s.settings.length ≤ 1 → (seed_data t1 s).settings.length = 1) ∧
    (s.settings = [] →
      (seed_data t1 s).settings = [{ id := 1, end_time := t1 + 72 * 3600 }]) ∧
    (s.settings ≠ [] → (seed_data t1 s).settings = s.settings) := by
  refine ⟨by rw [seed_data_players, seed_data_players], ?_, ?_, ?_, ?_, ?_, ?_⟩
  · rw [seed_data_polls t2, seed_data_polls t1]
    by_cases h : s.polls.length = 0
    · simp [h, seedPolls]
    · simp [h]
  · rw [seed_data_people, seed_data_people]
  · rw [seed_data_settings t2, seed_data_settings t1]
    by_cases h : s.settings.length = 0
    · simp [h]
    · simp [h]
  · intro hle
    rw [seed_data_settings t1]
    by_cases h : s.settings.length = 0
    · simp [h]
    · simp [h]
      omega
  · intro hnil
    rw [seed_data_settings t1]
    simp [hnil]
  · intro hne
    rw [seed_data_settings t1]
    simp [List.length_eq_zero, hne]

/-- C8 witness: seeding the empty store and seeding it again leaves the
same row counts (10 players, 9 polls, 16 people, 1 setting), and the first
seed creates the single setting row with end time `0 + 72h = 259200`. -/
theorem c8_witness :
    (seed_data 5 (seed_data 0 emptySt)).players.length = (seed_data 0 emptySt).players.length ∧
    (seed_data 5 (seed_data 0 emptySt)).polls.length = (seed_data 0 emptySt).polls.length ∧
    (seed_data 5 (seed_data 0 emptySt)).people.length = (seed_data 0 emptySt).people.length ∧
    (seed_data 5 (seed_data 0 emptySt)).settings.length = (seed_data 0 emptySt).settings.length ∧
    (seed_data 0 emptySt).settings = [{ id := 1, end_time := 259200 }] := by
  have h := c8_seed_idempotent emptySt 0 5
  exact ⟨h.1, h.2.1, h.2.2.1, h.2.2.2.1, (h.2.2.2.2.2.1 rfl).trans (by decide)⟩

/-- C10: whenever `/api/bid` answers anything but success — 404 for an
unknown player, 400 for a bid not exceeding the current one, or the 500
raised by a missing or non-integer request field — the store is unchanged;
and a missing/unparsable field yields the 500 server error, not a 400. -/
theorem c10_bid_error_frame (s : St) (pidO : Option Int) (bO : Option String)
    (amtO : Option Int) (t : Int) :
    ((api_place_bid pidO bO amtO t s).1 ≠ BidResp.success →
      (api_place_bid pidO bO amtO t s).2 = s) ∧
    (pidO = none ∨ bO = none ∨ amtO = none →
      (api_place_bid pidO bO amtO t s).1 = BidResp.serverErr) := by
  rcases pidO with _ | pid <;> rcases bO with _ | b <;> rcases amtO with _ | amt <;>
    simp [api_place_bid]
  intro h
  rcases hf : findPlayer s pid with _ | player
  · simp [place_bid, hf]
  · by_cases hle : amt ≤ player.current_bid
    · simp [place_bid, hf, hle]
    · exact absurd (by simp [place_bid, hf, hle]) h

/-- C10 witness: on `wSt`, a request with a missing amount answers the 500
server error and changes nothing, and a 400-rejected bid (9999 against a
current bid of 10000) also changes nothing. -/
theorem c10_witness :
    (api_place_bid (some 1) (some "Data Mavericks") none 0 wSt).1 = BidResp.serverErr ∧
    (api_place_bid (some 1) (some "Data Mavericks") none 0 wSt).2 = wSt ∧
    (api_place_bid (some 1) (some "Data Mavericks") (some 9999) 0 wSt).2 = wSt := by
  have h1 := c10_bid_error_frame wSt (some 1) (some "Data Mavericks") none 0
  have h2 := c10_bid_error_frame wSt (some 1) (some "Data Mavericks") (some 9999) 0
  exact ⟨h1.2 (Or.inr (Or.inr rfl)), h1.1 (by decide), h2.1 (by decide)⟩

/-! ## Frame and invariant-preservation lemmas -/

/-- Mapping through `updateFirstBy` is invisible to any observation the
update preserves. -/
theorem map_updateFirstBy {α β : Type} (g : α → β) (pred : α → Bool) (f : α → α)
    (hg : ∀ x, g (f x) = g x) :
    ∀ l : List α, (updateFirstBy l pred f).map g = l.map g
  | [] => rfl
  | x :: xs => by
    by_cases hx : pred x
    · simp [updateFirstBy, hx, hg x]
    · simp [updateFirstBy, hx, map_updateFirstBy g pred f hg xs]

/-- `api_vote` never touches the players or bids tables. -/
theorem api_vote_players_bids (n : String) (t : Int) (s : St) :
    (api_vote n t s).2.players = s.players ∧ (api_vote n t s).2.bids = s.bids := by
  rcases h : s.polls.find? (fun p => p.team_name == n) with _ | q <;>
    simp [api_vote, h, log_activity]

/-- `api_poll` never touches the players or bids tables. -/
theorem api_poll_players_bids (s : St) :
    (api_poll s).2.players = s.players ∧ (api_poll s).2.bids = s.bids := by
  rcases h : s.polls.find? (fun p => p.team_name == "Code Trail") with _ | q <;>
    simp [api_poll, h]

/-- `api_people` never touches the players or bids tables. -/
theorem api_people_players_bids (s : St) :
    (api_people s).players = s.players ∧ (api_people s).bids = s.bids := by
  unfold api_people
  split_ifs <;> simp

/-- `api_player_detail` never writes the store. -/
theorem api_player_detail_state (pid : Int) (s : St) : (api_player_detail pid s).2 = s := by
  rcases h : findPlayer s pid with _ | p <;> simp [api_player_detail, h]

/-- `api_status` either leaves the store alone or reruns `seed_data`. -/
theorem api_status_state (now : Int) (s : St) :
    (api_status now s).2 = s ∨ (api_status now s).2 = seed_data now s := by
  rcases h : s.settings.find? (fun x => x.id == 1) with _ | st
  · right
    rcases h2 : (seed_data now s).settings.find? (fun x => x.id == 1) with _ | st2 <;>
      simp [api_status, h, h2]
  · left
    simp [api_status, h]

/-- `place_bid` either rejects (store unchanged) or rewrites exactly the
first row with the bid's player id and appends exactly one bid row. -/
theorem place_bid_cases (pid : Int) (bidder : String) (amt t : Int) (s : St) :
    (place_bid pid bidder amt t s).2 = s ∨
    ∃ player, findPlayer s pid = some player ∧ player.current_bid < amt ∧
      (place_bid pid bidder amt t s).2.players =
        updateFirstBy s.players (fun p => p.id == pid) (bumpPlayer bidder amt) ∧
      (place_bid pid bidder amt t s).2.bids =
        s.bids ++ [mkBid s.next_bid_id pid bidder amt t] := by
  rcases hf : findPlayer s pid with _ | player
  · left
    simp [place_bid, hf]
  · by_cases hle : amt ≤ player.current_bid
    · left
      simp [place_bid, hf, hle]
    · right
      exact ⟨player, rfl, not_le.mp hle, by simp [place_bid, hf, hle, log_activity],
             by simp [place_bid, hf, hle, log_activity]⟩

/-- Operations touching neither players nor bids preserve `StoreInv`. -/
theorem storeInv_of_frame {s s' : St} (hp : s'.players = s.players) (hb : s'.bids = s.bids)
    (h : StoreInv s) : StoreInv s' := by
  obtain ⟨h1, h2, h3⟩ := h
  refine ⟨?_, ?_, ?_⟩
  · intro p hmem
    rw [hb]
    exact h1 p (by rw [← hp]; exact hmem)
  · intro b hmem
    rw [hp]
    exact h2 b (by rw [← hb]; exact hmem)
  · unfold IdsNodup at h3 ⊢
    rw [hp]
    exact h3

/-- The seed players all satisfy the price floor. -/
theorem seedPlayers_priceInv : ∀ p ∈ seedPlayers, p.base_price ≤ p.current_bid := by decide

/-- The seed players all start at their base price. -/
theorem seedPlayers_atBase : ∀ p ∈ seedPlayers, p.current_bid = p.base_price := by decide

/-- The seed players all start with a zero bid counter. -/
theorem seedPlayers_zeroBids : ∀ p ∈ seedPlayers, p.total_bids = 0 := by decide

/-- The seed players carry pairwise distinct ids. -/
theorem seedPlayers_idsNodup : (seedPlayers.map (fun p => p.id)).Nodup := by decide

/-- `seed_data` establishes the price floor. -/
theorem seed_data_priceInv (now : Int) (s : St) : PriceInv (seed_data now s) := by
  intro p hp
  rw [seed_data_players] at hp
  exact seedPlayers_priceInv p hp

/-- On a referentially intact store, `seed_data` leaves no bid rows. -/
theorem seed_data_bids_nil (now : Int) (s : St) (h : RefIntInv s) :
    (seed_data now s).bids = [] := by
  rw [seed_data_bids]
  by_cases hp : s.players.length > 0
  · simp [hp]
  · have hpl : s.players = [] := by
      rcases hps : s.players with _ | ⟨a, l⟩
      · rfl
      · rw [hps] at hp
        simp at hp
    have hbn : s.bids = [] := by
      rcases hb : s.bids with _ | ⟨b, l⟩
      · rfl
      · exfalso
        obtain ⟨p, hpmem, -⟩ := h b (by rw [hb]; exact List.mem_cons_self b l)
        rw [hpl] at hpmem
        simp at hpmem
    simp [hp, hbn]

/-- `seed_data` establishes the full store invariant. -/
theorem seed_data_storeInv (now : Int) (s : St) (h : RefIntInv s) :
    StoreInv (seed_data now s) := by
  refine ⟨?_, ?_, ?_⟩
  · intro p hp
    rw [seed_data_players] at hp
    rw [seed_data_bids_nil now s h]
    simpa using seedPlayers_zeroBids p hp
  · intro b hb
    rw [seed_data_bids_nil now s h] at hb
    simp at hb
  · unfold IdsNodup
    rw [seed_data_players]
    exact seedPlayers_idsNodup

/-- Filtering a one-element list, negative case. -/
theorem filter_singleton_neg {α : Type} (p : α → Bool) (a : α) (h : p a = false) :
    List.filter p [a] = [] := by
  simp [List.filter_cons, h]

/-- Filtering a one-element list, positive case. -/
theorem filter_singleton_pos {α : Type} (p : α → Bool) (a : α) (h : p a = true) :
    List.filter p [a] = [a] := by
  simp [List.filter_cons, h]

/-- A successful bid preserves the full store invariant: the one counter it
increments is the one whose bid-row count grows by one. -/
theorem place_bid_storeInv (pid : Int) (bidder : String) (amt t : Int) (s : St)
    (h : StoreInv s) : StoreInv (place_bid pid bidder amt t s).2 := by
  rcases place_bid_cases pid bidder amt t s with heq | ⟨player, hf, hlt, hplayers, hbids⟩
  · rw [heq]
    exact h
  · obtain ⟨h1, h2, h3⟩ := h
    have hf' : s.players.find? (fun p => p.id == pid) = some player := hf
    obtain ⟨l1, l2, hdec, hl1, hpa, hupd⟩ :=
      find?_decomp (fun (p : Player) => p.id == pid) s.players player hf'
    have hpid : player.id = pid := by simpa using hpa
    rw [hupd] at hplayers
    have h3' : ((l1 ++ player :: l2).map (fun p => p.id)).Nodup := by
      have h3x := h3
      unfold IdsNodup at h3x
      rw [hdec] at h3x
      exact h3x
    have hl2 : ∀ q ∈ l2, q.id ≠ pid := by
      intro q hq hcontra
      have hmem : player.id ∈ l2.map (fun p => p.id) :=
        List.mem_map.mpr ⟨q, hq, by rw [hcontra, hpid]⟩
      have hnd : (player.id :: l2.map (fun p => p.id)).Nodup := by
        simp only [List.map_append, List.map_cons] at h3'
        exact h3'.of_append_right
      exact (List.nodup_cons.mp hnd).1 hmem
    refine ⟨?_, ?_, ?_⟩
    · intro p hp
      rw [hplayers] at hp
      rw [hbids, List.filter_append]
      rcases List.mem_append.mp hp with hp1 | hp2
      · have hx := hl1 p hp1
        have hne : (pid == p.id) = false := by
          simp only [beq_eq_false_iff_ne] at hx ⊢
          omega
        rw [filter_singleton_neg _ _ (by simpa [mkBid] using hne), List.append_nil]
        exact h1 p (by rw [hdec]; exact List.mem_append.mpr (Or.inl hp1))
      · rcases List.mem_cons.mp hp2 with rfl | hp3
        · have hmem : player ∈ s.players := by
            rw [hdec]
            exact List.mem_append.mpr (Or.inr (List.mem_cons_self player l2))
          have hold := h1 player hmem
          simp only [bumpPlayer]
          rw [filter_singleton_pos _ _ (by simp [mkBid, hpid])]
          simp only [List.length_append, List.length_cons, List.length_nil]
          omega
        · have hne : (pid == p.id) = false := by
            simp only [beq_eq_false_iff_ne]
            have := hl2 p hp3
            omega
          rw [filter_singleton_neg _ _ (by simpa [mkBid] using hne), List.append_nil]
          exact h1 p (by rw [hdec]; exact List.mem_append.mpr (Or.inr (List.mem_cons_of_mem _ hp3)))
    · intro b hb
      rw [hplayers]
      rw [hbids] at hb
      rcases List.mem_append.mp hb with hb1 | hb2
      · obtain ⟨q, hq, hqid⟩ := h2 b hb1
        rw [hdec] at hq
        rcases List.mem_append.mp hq with hq1 | hq2
        · exact ⟨q, List.mem_append.mpr (Or.inl hq1), hqid⟩
        · rcases List.mem_cons.mp hq2 with rfl | hq3
          · exact ⟨bumpPlayer bidder amt q,
              List.mem_append.mpr (Or.inr (List.mem_cons_self _ l2)), hqid⟩
          · exact ⟨q, List.mem_append.mpr (Or.inr (List.mem_cons_of_mem _ hq3)), hqid⟩
      · have hb3 := List.mem_singleton.mp hb2
        subst hb3
        exact ⟨bumpPlayer bidder amt player,
          List.mem_append.mpr (Or.inr (List.mem_cons_self _ l2)), hpid⟩
    · unfold IdsNodup
      rw [hplayers]
      have hmap : ((l1 ++ bumpPlayer bidder amt player :: l2).map (fun p => p.id))
          = (l1 ++ player :: l2).map (fun p => p.id) := by
        simp [List.map_append, bumpPlayer]
      rw [hmap, ← hdec]
      exact h3
/-- Every operation of the system preserves the full store invariant. -/
theorem step_storeInv (op : Op) (s : St) (h : StoreInv s) : StoreInv (step op s) := by
  cases op with
  | seedOp now => exact seed_data_storeInv now s h.2.1
  | bidOp pidO bO amtO t =>
    rcases pidO with _ | pid <;> rcases bO with _ | b <;> rcases amtO with _ | amt <;>
      try exact h
    exact place_bid_storeInv pid b amt t s h
  | voteOp n t =>
    exact storeInv_of_frame (api_vote_players_bids n t s).1 (api_vote_players_bids n t s).2 h
  | resetOp => exact storeInv_of_frame rfl rfl h
  | enquiryOp n e m t => exact storeInv_of_frame rfl rfl h
  | pollReadOp =>
    exact storeInv_of_frame (api_poll_players_bids s).1 (api_poll_players_bids s).2 h
  | peopleReadOp =>
    exact storeInv_of_frame (api_people_players_bids s).1 (api_people_players_bids s).2 h
  | statusReadOp now =>
    show StoreInv (api_status now s).2
    rcases api_status_state now s with heq | heq
    · rw [heq]
      exact h
    · rw [heq]
      exact seed_data_storeInv now s h.2.1
  | playersReadOp => exact h
  | playerDetailOp pid =>
    show StoreInv (api_player_detail pid s).2
    rw [api_player_detail_state]
    exact h
  | activityReadOp => exact h

/-- Every operation of the system preserves the price floor. -/
theorem step_priceInv (op : Op) (s : St) (h : PriceInv s) : PriceInv (step op s) := by
  cases op with
  | seedOp now => exact seed_data_priceInv now s
  | bidOp pidO bO amtO t =>
    rcases pidO with _ | pid <;> rcases bO with _ | b <;> rcases amtO with _ | amt <;>
      try exact h
    show PriceInv (place_bid pid b amt t s).2
    rcases place_bid_cases pid b amt t s with heq | ⟨player, hf, hlt, hplayers, hbids⟩
    · rw [heq]
      exact h
    · intro p hp
      rw [hplayers] at hp
      have hf' : s.players.find? (fun p => p.id == pid) = some player := hf
      rcases mem_updateFirstBy hf' hp with hmem | rfl
      · exact h p hmem
      · have hbase := h player (List.mem_of_find?_eq_some hf')
        show player.base_price ≤ amt
        omega
  | voteOp n t =>
    show PriceInv (api_vote n t s).2
    intro p hp
    rw [(api_vote_players_bids n t s).1] at hp
    exact h p hp
  | resetOp => exact h
  | enquiryOp n e m t => exact h
  | pollReadOp =>
    show PriceInv (api_poll s).2
    intro p hp
    rw [(api_poll_players_bids s).1] at hp
    exact h p hp
  | peopleReadOp =>
    show PriceInv (api_people s)
    intro p hp
    rw [(api_people_players_bids s).1] at hp
    exact h p hp
  | statusReadOp now =>
    show PriceInv (api_status now s).2
    rcases api_status_state now s with heq | heq
    · rw [heq]
      exact h
    · rw [heq]
      exact seed_data_priceInv now s
  | playersReadOp => exact h
  | playerDetailOp pid =>
    show PriceInv (api_player_detail pid s).2
    rw [api_player_detail_state]
    exact h
  | activityReadOp => exact h

/-- `StoreInv` is preserved along whole traces. -/
theorem applyAll_storeInv : ∀ (ops : List Op) (s : St), StoreInv s → StoreInv (applyAll ops s)
  | [], _, h => h
  | op :: ops, s, h => applyAll_storeInv ops (step op s) (step_storeInv op s h)

/-- `PriceInv` is preserved along whole traces. -/
theorem applyAll_priceInv : ∀ (ops : List Op) (s : St), PriceInv s → PriceInv (applyAll ops s)
  | [], _, h => h
  | op :: ops, s, h => applyAll_priceInv ops (step op s) (step_priceInv op s h)

/-- C3: every seeded player starts with `current_bid = base_price`, and
after any sequence of system operations (seeding, bid placement, voting,
poll reset, and all read endpoints) run from a seeded store, every player
still satisfies `current_bid >= base_price`. -/
theorem c3_price_floor (t0 : Int) (ops : List Op) :
    SeededAtBase (seed_data t0 emptySt) ∧ PriceInv (applyAll ops (seed_data t0 emptySt)) := by
  constructor
  · intro p hp
    rw [seed_data_players] at hp
    exact seedPlayers_atBase p hp
  · exact applyAll_priceInv ops _ (seed_data_priceInv t0 emptySt)

/-- C3 witness: the floor holds concretely after a successful bid, a
rejected bid, a vote and a poll read on the freshly seeded store. -/
theorem c3_witness :
    SeededAtBase (seed_data 0 emptySt) ∧
    PriceInv (applyAll
      [ Op.bidOp (some 1) (some "Java Jesters") (some 10001) 2
      , Op.bidOp (some 2) (some "Byte Busters") (some 5) 3
      , Op.voteOp "Byte Busters" 4, Op.pollReadOp ] (seed_data 0 emptySt)) :=
  c3_price_floor 0
    [ Op.bidOp (some 1) (some "Java Jesters") (some 10001) 2
    , Op.bidOp (some 2) (some "Byte Busters") (some 5) 3
    , Op.voteOp "Byte Busters" 4, Op.pollReadOp ]

/-- C4: after any sequence of system operations run from a seeded store,
every player's `total_bids` equals the number of `Bid` rows whose player
reference is that player — successful bids increment the counter and insert
one row in the same commit, and seeding deletes the bid rows and re-creates
players with `total_bids = 0`. -/
theorem c4_total_bids_count (t0 : Int) (ops : List Op) :
    BidCountInv (applyAll ops (seed_data t0 emptySt)) := by
  have h0 : StoreInv (seed_data t0 emptySt) :=
    seed_data_storeInv t0 emptySt (fun b hb => absurd hb (by simp [emptySt]))
  exact (applyAll_storeInv ops _ h0).1

/-- C4 witness: the counter matches the row count concretely after two
successful bids, one rejected bid and a reseed on the seeded store. -/
theorem c4_witness :
    BidCountInv (applyAll
      [ Op.bidOp (some 1) (some "Quantum Coders") (some 10001) 2
      , Op.bidOp (some 1) (some "Data Mavericks") (some 10500) 3
      , Op.bidOp (some 3) (some "Java Jesters") (some 15000) 4
      , Op.seedOp 9, Op.bidOp (some 2) (some "Byte Busters") (some 12345) 10 ]
      (seed_data 0 emptySt)) :=
  c4_total_bids_count 0
    [ Op.bidOp (some 1) (some "Quantum Coders") (some 10001) 2
    , Op.bidOp (some 1) (some "Data Mavericks") (some 10500) 3
    , Op.bidOp (some 3) (some "Java Jesters") (some 15000) 4
    , Op.seedOp 9, Op.bidOp (some 2) (some "Byte Busters") (some 12345) 10 ]

/-- C5 counterexample: the read endpoints are NOT all mutation-free — on a
store whose poll table holds a `Code Trail` row, `/api/poll` deletes that
row, so the store after the call differs from the store before it. -/
theorem c5_counterexample : (api_poll codeTrailSt).2 ≠ codeTrailSt := by decide

/-- C5 (amended): every read endpoint leaves the store unchanged provided
no poll row is named `Code Trail` (otherwise `/api/poll` deletes it), at
least one `Faculty Advisor` person exists (otherwise `/api/people` reseeds
the faculty bucket), and the `Setting` row `id=1` exists (otherwise
`/api/status` reruns the whole seeding procedure); `/api/players`,
`/api/players/<id>` and `/api/activity` are unconditionally read-only. -/
theorem c5_reads_frame (s : St) (now pid : Int)
    (hpoll : s.polls.find? (fun p => p.team_name == "Code Trail") = none)
    (hfac : (s.people.filter (fun p => p.role == "Faculty Advisor")).isEmpty = false)
    (hset : s.settings.find? (fun x => x.id == 1) ≠ none) :
    (api_players s).2 = s ∧ (api_player_detail pid s).2 = s ∧ (api_activity s).2 = s ∧
    (api_poll s).2 = s ∧ api_people s = s ∧ (api_status now s).2 = s := by
  refine ⟨rfl, api_player_detail_state pid s, rfl, ?_, ?_, ?_⟩
  · simp [api_poll, hpoll]
  · simp [api_people, hfac]
  · rcases hso : s.settings.find? (fun x => x.id == 1) with _ | st
    · exact absurd hso hset
    · simp [api_status, hso]

/-- C5 witness: on a store with one normally named poll row, one faculty
person and the setting row, all six read endpoints leave it unchanged. -/
theorem c5_witness :
    (api_players wReadSt).2 = wReadSt ∧ (api_player_detail 1 wReadSt).2 = wReadSt ∧
    (api_activity wReadSt).2 = wReadSt ∧ (api_poll wReadSt).2 = wReadSt ∧
    api_people wReadSt = wReadSt ∧ (api_status 50 wReadSt).2 = wReadSt :=
  c5_reads_frame wReadSt 50 1 (by decide) (by decide) (by decide)

/-- C9 (the claim the unlocked code violates): `api_place_bid` reads the
player with a plain unlocked SELECT, so both concurrent requests can read
before either commits.  Under that interleaving, bids of 11000 and 12000
against a current bid of 10000 BOTH succeed, BOTH bid rows are recorded,
and the final `current_bid` is 11000 — the lower bid overwrote the higher
one — with `total_bids = 1` despite two rows; nothing serializes the
validate-then-write span per player. -/
theorem c9_race_lost_update :
    (run_race { pid := 1, bidder := "Syntax Samurai", amount := 11000, t := 1 }
       { pid := 1, bidder := "Byte Busters", amount := 12000, t := 2 } wSt).1
      = BidResp.success ∧
    (run_race { pid := 1, bidder := "Syntax Samurai", amount := 11000, t := 1 }
       { pid := 1, bidder := "Byte Busters", amount := 12000, t := 2 } wSt).2.1
      = BidResp.success ∧
    (findPlayer (run_race { pid := 1, bidder := "Syntax Samurai", amount := 11000, t := 1 }
       { pid := 1, bidder := "Byte Busters", amount := 12000, t := 2 } wSt).2.2 1).map
      (fun p => (p.current_bid, p.total_bids)) = some (11000, 1) ∧
    (run_race { pid := 1, bidder := "Syntax Samurai", amount := 11000, t := 1 }
       { pid := 1, bidder := "Byte Busters", amount := 12000, t := 2 } wSt).2.2.bids.map
      (fun b => b.bid_amount) = [12000, 11000] := by
  decide

end BOB
